import Mathlib

/-!
Shallow embedding of the `gpu` crate (a thin safety layer over OpenGL) and
proofs about its resource-lifecycle, draw-dispatch and format logic.

The repository contains two iterations of the same design:
  * the standalone modules `src/buffer.rs`, `src/queue.rs`, `src/factory.rs`,
    `src/draw_call.rs`, `src/program.rs`, `src/vertex_array.rs`,
    `src/texture.rs`, `src/framebuffer.rs`, `src/renderbuffer.rs` (the most
    developed variant) — embedded below in the `Gpu` namespace;
  * an older superseded variant living inline in `src/lib.rs` (its own
    `buffer`, `program` and `vertex_array` modules plus a `Factory` impl) —
    embedded below in the `Gpu.librs` namespace.

Machine integers (`u8`, `u32`, `usize`, `i32`) are modelled as `Nat`/`Int`;
panics are modelled as `Option`/`Except` error results; driver calls are
modelled as a trace of `GlCall` values, with driver-reported values (generated
IDs, statuses, query results) passed in as parameters.
-/

namespace Gpu

/-! ## OpenGL enumeration constants

Values of the constants referenced by the sources, as produced by the
`gl_generator` bindings named in `build.rs` (standard OpenGL values). -/

namespace gl

def ARRAY_BUFFER : Nat := 0x8892

def ELEMENT_ARRAY_BUFFER : Nat := 0x8893

def UNIFORM_BUFFER : Nat := 0x8A11

def TEXTURE_BUFFER : Nat := 0x8C2A

def STATIC_DRAW : Nat := 0x88E4

def DYNAMIC_DRAW : Nat := 0x88E8

def BYTE : Nat := 0x1400

def UNSIGNED_BYTE : Nat := 0x1401

def SHORT : Nat := 0x1402

def UNSIGNED_SHORT : Nat := 0x1403

def INT : Nat := 0x1404

def UNSIGNED_INT : Nat := 0x1405

def FLOAT : Nat := 0x1406

def TRIANGLES : Nat := 0x0004

def TRIANGLE_STRIP : Nat := 0x0005

def LINES : Nat := 0x0001

def LINE_STRIP : Nat := 0x0003

def LINE_LOOP : Nat := 0x0002

def TEXTURE_2D : Nat := 0x0DE1

def VERTEX_SHADER : Nat := 0x8B31

def FRAGMENT_SHADER : Nat := 0x8B30

def INVALID_INDEX : Nat := 0xFFFFFFFF

end gl

/-! ## Driver-call traces

Every driver-mutating operation of the factory is modelled as the list of
low-level GL calls it issues, in order. -/

/-- One low-level OpenGL call issued through the factory's wrappers. -/
inductive GlCall where
  | bindBuffer (id ty : Nat)
  | bufferData (target len usage : Nat)
  | bufferSubData (target off len : Nat)
  | bindVertexArray (id : Nat)
  | useProgram (id : Nat)
  | bindBufferBase (target binding id : Nat)
  | activeTexture (index : Nat)
  | bindTexture (ty id : Nat)
  | drawArrays (mode offset count : Nat)
  | drawElements (mode offset count ty : Nat)
  deriving DecidableEq, Repr

/-! ## `src/buffer.rs` — buffer kinds, usage hints and element formats -/

namespace buffer

/-- Buffer kind (`src/buffer.rs`, enum `Kind`). -/
inductive Kind where
  | Array
  | Index
  | Uniform
  | Texture
  deriving DecidableEq, Repr

/-- Method `Kind::as_gl_enum` (`src/buffer.rs` lines 31-38). -/
def Kind.as_gl_enum : Kind → Nat
  | .Array => gl.ARRAY_BUFFER
  | .Index => gl.ELEMENT_ARRAY_BUFFER
  | .Uniform => gl.UNIFORM_BUFFER
  | .Texture => gl.TEXTURE_BUFFER

/-- Buffer usage hint (`src/buffer.rs`, enum `Usage`). -/
inductive Usage where
  | StaticDraw
  | DynamicDraw
  deriving DecidableEq, Repr

/-- Method `Usage::as_gl_enum` (`src/buffer.rs` lines 53-58). -/
def Usage.as_gl_enum : Usage → Nat
  | .StaticDraw => gl.STATIC_DRAW
  | .DynamicDraw => gl.DYNAMIC_DRAW

namespace format

/-- Accessor element format of the standalone variant
(`src/buffer.rs`, `mod format`, enum `Format`, lines 331-364).
Each constructor carries the declared component count (a `u8`). -/
inductive Format where
  | F32 (n : Nat)
  | I8 (n : Nat)
  | I8Norm (n : Nat)
  | I16 (n : Nat)
  | I16Norm (n : Nat)
  | I32 (n : Nat)
  | U8 (n : Nat)
  | U8Norm (n : Nat)
  | U16 (n : Nat)
  | U16Norm (n : Nat)
  | U32 (n : Nat)
  deriving DecidableEq, Repr

/-- Method `Format::gl_data_type` (`src/buffer.rs` lines 368-378). -/
def Format.gl_data_type : Format → Nat
  | .F32 _ => gl.FLOAT
  | .I8 _ | .I8Norm _ => gl.BYTE
  | .I16 _ | .I16Norm _ => gl.SHORT
  | .I32 _ => gl.INT
  | .U8 _ | .U8Norm _ => gl.UNSIGNED_BYTE
  | .U16 _ | .U16Norm _ => gl.UNSIGNED_SHORT
  | .U32 _ => gl.UNSIGNED_INT

/-- Method `Format::norm` (`src/buffer.rs` lines 381-389). -/
def Format.norm : Format → Bool
  | .I8Norm _ => true
  | .I16Norm _ => true
  | .U8Norm _ => true
  | .U16Norm _ => true
  | _ => false

/-- Projection of the declared component count (the constructor argument);
a helper for stating properties, not itself a source method. -/
def Format.declared : Format → Nat
  | .F32 n | .I8 n | .I8Norm n | .I16 n | .I16Norm n | .I32 n
  | .U8 n | .U8Norm n | .U16 n | .U16Norm n | .U32 n => n

/-- Method `Format::size` (`src/buffer.rs` lines 392-410): extracts the
declared component count and panics (modelled as `none`) unless it is
1, 2, 3 or 4. -/
def Format.size (f : Format) : Option Nat :=
  match f.declared with
  | 1 => some 1
  | 2 => some 2
  | 3 => some 3
  | 4 => some 4
  | _ => none

end format

/-- A contiguous region of GPU memory (`src/buffer.rs`, struct `Buffer`,
lines 74-90). The shared destructor is modelled separately by the
`handle` state machine below; the remaining fields are plain data. -/
structure Buffer where
  id : Nat
  kind : Kind
  size : Nat
  usage : Usage
  deriving DecidableEq, Repr

/-- Constructor `Buffer::new` (`src/buffer.rs` lines 94-109): records the
given id, kind, size and usage (and wraps a fresh destructor, modelled
separately). -/
def Buffer.new (id : Nat) (kind : Kind) (size : Nat) (usage : Usage) : Buffer :=
  { id := id, kind := kind, size := size, usage := usage }

/-- A contiguous sub-region of a `Buffer` (`src/buffer.rs`, struct `Slice`,
lines 188-192). -/
structure Slice where
  buffer : Buffer
  offset : Nat
  length : Nat
  deriving DecidableEq, Repr

/-- Constructor `Slice::new` (`src/buffer.rs` lines 196-198). -/
def Slice.new (buffer : Buffer) (offset : Nat) (length : Nat) : Slice :=
  { buffer := buffer, offset := offset, length := length }

/-- Method `Slice::id` (`src/buffer.rs` lines 201-203). -/
def Slice.id (s : Slice) : Nat := s.buffer.id

/-- Method `Slice::kind` (`src/buffer.rs` lines 211-213). -/
def Slice.kind (s : Slice) : Kind := s.buffer.kind

/-- Method `Buffer::as_slice` (`src/buffer.rs` lines 139-141): a slice
covering the whole buffer, `Slice::new(self, 0, self.size)`. -/
def Buffer.as_slice (b : Buffer) : Slice := Slice.new b 0 b.size

/-- Method `Buffer::slice` (`src/buffer.rs` lines 146-148). -/
def Buffer.slice (b : Buffer) (offset : Nat) (length : Nat) : Slice :=
  Slice.new b offset length

/-- A formatted view into a `Buffer` (`src/buffer.rs`, struct `Accessor`,
lines 230-242). -/
structure Accessor where
  buffer : Buffer
  format : format.Format
  offset : Nat
  stride : Nat
  deriving DecidableEq, Repr

end buffer

/-! ## `src/lib.rs` — the older, superseded variant of the crate

The crate root `src/lib.rs` holds an earlier iteration with its own inline
`buffer`, `program` and `vertex_array` modules and its own `Factory`. Its
`Kind`/`Usage`/`Buffer`/`Slice` declarations are textually identical to the
standalone `src/buffer.rs` ones, so those embeddings are reused; its `Format`
differs and is embedded here. -/

namespace librs

/-- Accessor element format of the `src/lib.rs` variant (enum
`buffer::Format`, lines 281-309): struct-like variants carrying the bit
width, a normalization flag (integers only) and the component count. -/
inductive Format where
  | Float (bits : Nat) (size : Nat)
  | Signed (bits : Nat) (norm : Bool) (size : Nat)
  | Unsigned (bits : Nat) (norm : Bool) (size : Nat)
  deriving DecidableEq, Repr

/-- Method `Format::gl_data_type` (`src/lib.rs` lines 313-324): panics
(modelled as `none`) on a bit width with no GL equivalent. -/
def Format.gl_data_type : Format → Option Nat
  | .Float 32 _ => some gl.FLOAT
  | .Signed 8 _ _ => some gl.BYTE
  | .Signed 16 _ _ => some gl.SHORT
  | .Signed 32 _ _ => some gl.INT
  | .Unsigned 8 _ _ => some gl.UNSIGNED_BYTE
  | .Unsigned 16 _ _ => some gl.UNSIGNED_SHORT
  | .Unsigned 32 _ _ => some gl.UNSIGNED_INT
  | _ => none

/-- Method `Format::bits` (`src/lib.rs` lines 327-333). -/
def Format.bits : Format → Nat
  | .Signed bits _ _ => bits
  | .Unsigned bits _ _ => bits
  | .Float bits _ => bits

/-- Method `Format::norm` (`src/lib.rs` lines 336-342): the flag for the
integer variants, `false` otherwise. -/
def Format.norm : Format → Bool
  | .Signed _ norm _ => norm
  | .Unsigned _ norm _ => norm
  | _ => false

/-- Method `Format::size` (`src/lib.rs` lines 345-351): returns the declared
component count unconditionally — there is no 1-4 validation and no panic in
this variant. -/
def Format.size : Format → Nat
  | .Float _ size => size
  | .Signed _ _ size => size
  | .Unsigned _ _ size => size

/-- A formatted view into a `Buffer` (`src/lib.rs`, struct `buffer::Accessor`,
lines 358-370); identical to the standalone one except for its `Format`. -/
structure Accessor where
  buffer : buffer.Buffer
  format : Format
  offset : Nat
  stride : Nat
  deriving DecidableEq, Repr

end librs

/-! ## `src/queue.rs` — the deferred-release queue

`Queue::new` builds a `crossbeam_channel::bounded(MAX_QUEUE_SIZE)` channel.
Per the crossbeam-channel contract, `Sender::send` on a bounded channel
appends the message when the channel has spare capacity and otherwise blocks
the calling thread until capacity appears (it returns an `Err` — it does not
panic — only when the channel is disconnected). The queue contents are
modelled as the list of pending messages, oldest first. -/

namespace queue

/-- Constant `MAX_QUEUE_SIZE` (`src/queue.rs` line 3). -/
def MAX_QUEUE_SIZE : Nat := 1024

/-- Outcome of one `crossbeam_channel::Sender::send` call on a connected
bounded channel. -/
inductive SendOutcome (α : Type) where
  | sent (q : List α)
  | blocked
  deriving DecidableEq, Repr

/-- Behaviour of `Sender::send` on the connected `bounded(MAX_QUEUE_SIZE)`
channel built by `Queue::new` (`src/queue.rs` line 28): append when below
capacity, block the caller when full. -/
def send (q : List α) (x : α) : SendOutcome α :=
  if q.length < MAX_QUEUE_SIZE then .sent (q ++ [x]) else .blocked

/-- Method `Queue::next` (`src/queue.rs` lines 39-41): non-blocking pop of
the front of the queue. -/
def next (q : List α) : Option α × List α :=
  match q with
  | [] => (none, [])
  | x :: rest => (some x, rest)

end queue

/-- The buffer destructor (`src/buffer.rs`, struct `Destructor`, lines
62-65): the id it will enqueue, with the send half of the buffer queue. -/
structure Destructor where
  id : Nat
  deriving DecidableEq, Repr

/-- Body of `impl Drop for Destructor` (`src/buffer.rs` lines 67-71):
`let _ = self.tx.send(self.id)` — one `send` of the stored id on the
category's queue, its result discarded. -/
def Destructor.drop_send (d : Destructor) (q : List Nat) : queue.SendOutcome Nat :=
  queue.send q d.id

/-! ## Reference-counted handle lifecycle

Every handle category wraps its destructor in `sync::Arc` and derives
`Clone`; cloning a handle bumps the `Arc` strong count, dropping a clone
decrements it, and only the transition to zero runs the inner
`Destructor::drop`, which sends one message on the category's queue:

  * `src/buffer.rs` lines 67-71: sends the buffer id;
  * `src/texture.rs` lines 46-50: sends the texture id;
  * `src/renderbuffer.rs` lines 13-17: sends the renderbuffer id;
  * `src/vertex_array.rs` lines 20-24: sends the VAO id;
  * `src/shader.rs` lines 40-44: sends `Destroyed::Object(id)`;
  * `src/program.rs` lines 69-73: sends `Destroyed::Program(id)`.

The state machine below tracks one destructor's strong count together with
the messages that destructor has enqueued. An operation (cloning or dropping
a clone) is only possible while at least one clone is live. -/

namespace handle

/-- Message carried on a category's release queue: the bare numeric id for
buffers, textures, renderbuffers and vertex arrays, or a
`program::Destroyed` value for shader objects and programs
(`src/program.rs` lines 40-46). -/
inductive Msg where
  | raw (id : Nat)
  | destroyedObject (id : Nat)
  | destroyedProgram (id : Nat)
  deriving DecidableEq, Repr

/-- The six resource handle categories. -/
inductive Category where
  | buffer
  | texture2
  | renderbuffer
  | vertexArray
  | shaderObject
  | program
  deriving DecidableEq, Repr

/-- Message sent by each category's `Drop` impl for a destructor holding
numeric id `id` (see the file/line references above). -/
def destructorMessage : Category → Nat → Msg
  | .buffer, id => .raw id
  | .texture2, id => .raw id
  | .renderbuffer, id => .raw id
  | .vertexArray, id => .raw id
  | .shaderObject, id => .destroyedObject id
  | .program, id => .destroyedProgram id

/-- Occurrence count of a message in a queue. -/
def countMsg (m : Msg) (q : List Msg) : Nat :=
  (q.filter fun x => x = m).length

/-- State of one shared destructor: the `Arc` strong count and the list of
messages enqueued by this destructor so far. -/
structure State where
  refcount : Nat
  queue : List Msg
  deriving DecidableEq, Repr

/-- An operation on a live handle: `Clone::clone` or dropping one clone. -/
inductive Op where
  | clone
  | drop
  deriving DecidableEq, Repr

/-- State after handle construction (`Buffer::new` etc. wrap the destructor
in a fresh `Arc::new`, strong count 1, nothing enqueued). -/
def init : State := { refcount := 1, queue := [] }

/-- One step: cloning bumps the strong count; dropping a clone decrements
it, and the decrement from 1 to 0 runs `Destructor::drop`, which enqueues
the category's message for the stored id. -/
def step (c : Category) (id : Nat) (s : State) : Op → State
  | .clone => { s with refcount := s.refcount + 1 }
  | .drop =>
      if s.refcount = 1 then
        { refcount := 0, queue := s.queue ++ [destructorMessage c id] }
      else
        { s with refcount := s.refcount - 1 }

/-- Run a sequence of clone/drop operations. -/
def run (c : Category) (id : Nat) (s : State) : List Op → State
  | [] => s
  | op :: ops => run c id (step c id s op) ops

/-- A sequence of operations is valid when each operation acts on a live
handle (Rust only lets a clone or a drop happen while a clone exists). -/
def Valid (c : Category) (id : Nat) (s : State) : List Op → Prop
  | [] => True
  | op :: ops => 0 < s.refcount ∧ Valid c id (step c id s op) ops

/-- Lifecycle invariant: either some clone is live and nothing has been
enqueued yet, or the strong count hit zero and exactly one message was
enqueued. -/
def Inv (c : Category) (id : Nat) (s : State) : Prop :=
  (0 < s.refcount ∧ countMsg (destructorMessage c id) s.queue = 0)
  ∨ (s.refcount = 0 ∧ countMsg (destructorMessage c id) s.queue = 1)

end handle

/-! ## `src/program.rs` — programs, shader objects and invocations -/

namespace program

/-- Constant `MAX_UNIFORMS` (`src/program.rs` line 11). -/
def MAX_UNIFORMS : Nat := 4

/-- Constant `MAX_SAMPLERS` (`src/program.rs` line 14). -/
def MAX_SAMPLERS : Nat := 4

/-- Shader stage (`src/program.rs`, enum `Kind`). -/
inductive Kind where
  | Vertex
  | Fragment
  deriving DecidableEq, Repr

/-- Method `Kind::as_gl_enum` (`src/program.rs` lines 31-36). -/
def Kind.as_gl_enum : Kind → Nat
  | .Vertex => gl.VERTEX_SHADER
  | .Fragment => gl.FRAGMENT_SHADER

/-- An unlinked shader object (`src/program.rs`, struct `Object`, lines
77-86); its shared destructor is modelled by the `handle` state machine. -/
structure Object where
  id : Nat
  kind : Kind
  deriving DecidableEq, Repr

/-- Constructor `Object::new` (`src/program.rs` lines 90-105). -/
def Object.new (id : Nat) (kind : Kind) : Object :=
  { id := id, kind := kind }

/-- A linked program (`src/program.rs`, struct `Program`, lines 149-155). -/
structure Program where
  id : Nat
  deriving DecidableEq, Repr

/-- Constructor `Program::new` (`src/program.rs` lines 159-172). -/
def Program.new (id : Nat) : Program :=
  { id := id }

end program

/-! ## `src/texture.rs` — samplers -/

namespace texture

/-- A sampler (`src/texture.rs`, struct `Sampler`, lines 52-62): parent
texture id and texture kind; it shares the parent texture's destructor. -/
structure Sampler where
  id : Nat
  ty : Nat
  deriving DecidableEq, Repr

end texture

/-- A draw-time program invocation (`src/program.rs`, struct `Invocation`,
lines 136-146): the program plus per-slot optional uniform buffers and
samplers (`[Option<Buffer>; MAX_UNIFORMS]`, `[Option<Sampler>; MAX_SAMPLERS]`,
modelled as lists read by position). -/
structure Invocation where
  program : program.Program
  uniforms : List (Option buffer.Buffer)
  samplers : List (Option texture.Sampler)

/-! ## `src/vertex_array.rs` — vertex array objects -/

namespace vertex_array

/-- Constant `MAX_ATTRIBUTES` (`src/vertex_array.rs` line 9). -/
def MAX_ATTRIBUTES : Nat := 8

/-- A vertex array object (`src/vertex_array.rs`, struct `VertexArray`,
lines 27-40): VAO id, optional index accessor and the per-slot attribute
accessors (`VecMap<Accessor>` modelled as a list of optional accessors read
by position); the shared destructor is modelled by the `handle` machine. -/
structure VertexArray where
  id : Nat
  indices : Option buffer.Accessor
  attributes : List (Option buffer.Accessor)

end vertex_array

/-! ## `src/draw_call.rs` — draw-call descriptors -/

namespace draw_call

/-- Primitive topology (`src/draw_call.rs`, enum `Primitive`). -/
inductive Primitive where
  | Triangles
  | TriangleStrip
  | Lines
  | LineStrip
  | LineLoop
  deriving DecidableEq, Repr

/-- Method `Primitive::as_gl_enum` (`src/draw_call.rs` lines 27-35). -/
def Primitive.as_gl_enum : Primitive → Nat
  | .Triangles => gl.TRIANGLES
  | .TriangleStrip => gl.TRIANGLE_STRIP
  | .Lines => gl.LINES
  | .LineStrip => gl.LINE_STRIP
  | .LineLoop => gl.LINE_LOOP

/-- Draw call kind (`src/draw_call.rs`, enum `Kind`, lines 40-52). -/
inductive Kind where
  | Arrays
  | ArraysInstanced (n : Nat)
  | Elements
  | ElementsInstanced (n : Nat)
  deriving DecidableEq, Repr

/-- A draw call command (`src/draw_call.rs`, struct `DrawCall`, lines
56-68). -/
structure DrawCall where
  offset : Nat
  count : Nat
  primitive : Primitive
  kind : Kind
  deriving DecidableEq, Repr

end draw_call

/-! ## `src/factory.rs` — the factory

Driver-supplied values (generated ids, error codes, statuses, query results)
are parameters; driver-mutating operations return their `GlCall` trace. -/

namespace Factory

/-- Method `Factory::check_error` (`src/factory.rs` lines 104-109): panics
(modelled as `Except.error`) on any nonzero `glGetError` result. -/
def check_error (error : Nat) : Except String Unit :=
  if error ≠ 0 then .error "error: glGetError() returned nonzero" else .ok ()

/-- Method `Factory::buffer` (`src/factory.rs` lines 152-158): wraps the
driver-generated id in a `Buffer` handle with `size = 0`. -/
def buffer (driverId : Nat) (kind : buffer.Kind) (usage : buffer.Usage) :
    buffer.Buffer :=
  buffer.Buffer.new driverId kind 0 usage

/-- Method `Factory::initialize_buffer` (`src/factory.rs` lines 83-92):
binds the buffer, uploads the data as the full contents, unbinds. It takes
the handle by shared reference, calls only its getters and never calls
`Buffer::set_size`, so the handle is unchanged; `dataLen` is the byte
length of the uploaded slice. -/
def initialize_buffer (b : buffer.Buffer) (dataLen : Nat) : List GlCall :=
  [ .bindBuffer b.id b.kind.as_gl_enum,
    .bufferData b.kind.as_gl_enum dataLen b.usage.as_gl_enum,
    .bindBuffer 0 b.kind.as_gl_enum ]

/-- Method `Factory::overwrite_buffer` (`src/factory.rs` lines 95-99):
binds the slice's buffer, uploads into the byte range, unbinds. Also takes
everything by shared reference and never touches the handle's fields. -/
def overwrite_buffer (s : buffer.Slice) (_dataLen : Nat) : List GlCall :=
  [ .bindBuffer s.id s.kind.as_gl_enum,
    .bufferSubData s.kind.as_gl_enum s.offset s.length,
    .bindBuffer 0 s.kind.as_gl_enum ]

/-- Method `Factory::compile_shader` (`src/factory.rs` lines 256-268):
`glCompileShader`, an error check, `glGetShaderiv(COMPILE_STATUS)`, another
error check, then a panic exactly when the reported status is 0.
`err₁`/`err₂` are the two `glGetError` results, `status` the compile
status. -/
def compile_shader (err₁ : Nat) (status : Int) (err₂ : Nat) :
    Except String Unit :=
  match check_error err₁ with
  | .error e => .error e
  | .ok _ =>
    match check_error err₂ with
    | .error e => .error e
    | .ok _ =>
      if status = 0 then .error "Shader compilation failed" else .ok ()

/-- Method `Factory::link_program` (`src/factory.rs` lines 291-305):
`glLinkProgram`, an error check, `glGetProgramiv(LINK_STATUS)`, another
error check, then a panic exactly when the reported status is 0. -/
def link_program (err₁ : Nat) (status : Int) (err₂ : Nat) :
    Except String Unit :=
  match check_error err₁ with
  | .error e => .error e
  | .ok _ =>
    match check_error err₂ with
    | .error e => .error e
    | .ok _ =>
      if status = 0 then .error "Program linking failed" else .ok ()

/-- Method `Factory::program_object` (`src/factory.rs` lines 308-318):
creates a shader object (driver supplies `driverId`), sets its source,
compiles it — aborting if compilation aborts — and wraps the id in an
`Object` handle. -/
def program_object (driverId : Nat) (kind : program.Kind)
    (err₁ : Nat) (status : Int) (err₂ : Nat) : Except String program.Object :=
  match compile_shader err₁ status err₂ with
  | .error e => .error e
  | .ok _ => .ok (program.Object.new driverId kind)

/-- Method `Factory::program` (`src/factory.rs` lines 353-364): creates a
program (driver supplies `driverId`), attaches the two shader objects,
links — aborting if linking aborts — and wraps the id in a `Program`
handle. -/
def programLink (driverId : Nat) (_vertex _fragment : program.Object)
    (err₁ : Nat) (status : Int) (err₂ : Nat) : Except String program.Program :=
  match link_program err₁ status err₂ with
  | .error e => .error e
  | .ok _ => .ok (program.Program.new driverId)

/-- Method `Factory::query_uniform_block_index` (`src/factory.rs` lines
367-376): translates the driver's `GL_INVALID_INDEX` sentinel to `None`
and any other returned index to `Some`. `driverIndex` is the `u32` returned
by `glGetUniformBlockIndex`. -/
def query_uniform_block_index (driverIndex : Nat) : Option Nat :=
  if driverIndex = gl.INVALID_INDEX then none else some driverIndex

/-- Method `Factory::query_uniform_index` (`src/factory.rs` lines 379-388):
translates the driver's `-1` location sentinel to `None`, and any other
`i32` location to `Some(x as u32)` (two's-complement cast). `location` is
the value returned by `glGetUniformLocation`. -/
def query_uniform_index (location : Int) : Option Nat :=
  if location = -1 then none
  else some ((location % (2 ^ 32 : Int)).toNat)

end Factory

namespace Factory

/-- Uniform-binding loop of `Factory::draw` (`src/factory.rs` lines
576-580): for each slot `i` in `0 .. MAX_UNIFORMS`, if a buffer is present
bind it to uniform binding point `i`. -/
def uniformCalls (uniforms : List (Option buffer.Buffer)) : List GlCall :=
  (List.range program.MAX_UNIFORMS).flatMap fun i =>
    match uniforms.getD i none with
    | some b => [GlCall.bindBufferBase gl.UNIFORM_BUFFER i b.id]
    | none => []

/-- Sampler-binding loop of `Factory::draw` (`src/factory.rs` lines
581-586): for each slot `i` in `0 .. MAX_SAMPLERS`, if a sampler is present
activate texture unit `i` and bind the sampler's texture. -/
def samplerCalls (samplers : List (Option texture.Sampler)) : List GlCall :=
  (List.range program.MAX_SAMPLERS).flatMap fun i =>
    match samplers.getD i none with
    | some s => [GlCall.activeTexture i, GlCall.bindTexture s.ty s.id]
    | none => []

/-- Method `Factory::draw` (`src/factory.rs` lines 568-603): bind the VAO
and program, bind present uniform buffers and samplers, dispatch —
`glDrawElements` with the index accessor's data type when the vertex array
has an index accessor, `glDrawArrays` otherwise, in both cases from
`range.start` for `range.end - range.start` — then unbind the program and
the VAO. `start`/`stop` are the fields of the `ops::Range<usize>`
argument. -/
def draw (va : vertex_array.VertexArray) (start stop : Nat)
    (inv : Invocation) : List GlCall :=
  [GlCall.bindVertexArray va.id, GlCall.useProgram inv.program.id]
  ++ uniformCalls inv.uniforms
  ++ samplerCalls inv.samplers
  ++ (match va.indices with
      | some accessor =>
          [GlCall.drawElements gl.TRIANGLES start (stop - start)
            accessor.format.gl_data_type]
      | none =>
          [GlCall.drawArrays gl.TRIANGLES start (stop - start)])
  ++ [GlCall.useProgram 0, GlCall.bindVertexArray 0]

end Factory

/-! ## The superseded `Factory::draw` of `src/lib.rs` -/

namespace librs

/-- A vertex array of the `src/lib.rs` variant (struct
`vertex_array::VertexArray`, lines 633-645), whose accessors use the
`src/lib.rs` `Format`. -/
structure VertexArray where
  id : Nat
  indices : Option Accessor
  attributes : List (Option Accessor)

/-- A program invocation of the `src/lib.rs` variant (struct
`program::Invocation`, lines 542-548): program plus per-slot optional
uniform buffers; this variant has no sampler slots. -/
structure Invocation where
  program : program.Program
  uniforms : List (Option buffer.Buffer)

/-- Uniform-binding loop of the `src/lib.rs` `Factory::draw` (lines
1088-1092), identical to the standalone one. -/
def uniformCalls (uniforms : List (Option buffer.Buffer)) : List GlCall :=
  (List.range program.MAX_UNIFORMS).flatMap fun i =>
    match uniforms.getD i none with
    | some b => [GlCall.bindBufferBase gl.UNIFORM_BUFFER i b.id]
    | none => []

/-- Method `Factory::draw` of `src/lib.rs` (lines 1080-1107): bind the VAO
and program, bind present uniform buffers, dispatch elements or arrays —
and return, with no sampler loop and no unbinding of the program or the
VAO. In the elements branch `Format::gl_data_type` can panic (invalid bit
width), hence the `Option` result. -/
def Factory.draw (va : VertexArray) (start stop : Nat)
    (inv : Invocation) : Option (List GlCall) :=
  let headCalls :=
    [GlCall.bindVertexArray va.id, GlCall.useProgram inv.program.id]
    ++ uniformCalls inv.uniforms
  match va.indices with
  | some accessor =>
      (accessor.format.gl_data_type).map fun ty =>
        headCalls ++ [GlCall.drawElements gl.TRIANGLES start (stop - start) ty]
  | none =>
      some (headCalls ++ [GlCall.drawArrays gl.TRIANGLES start (stop - start)])

end librs

/-! ## Binding-state semantics of a driver-call trace

Only `glUseProgram` and `glBindVertexArray` move the two bindings the
claims are about; every other call leaves them unchanged. -/

/-- The driver's current program and vertex-array bindings. -/
structure Bindings where
  program : Nat
  vao : Nat
  deriving DecidableEq, Repr

/-- Effect of one driver call on the two bindings. -/
def applyCall (b : Bindings) : GlCall → Bindings
  | .useProgram id => { b with program := id }
  | .bindVertexArray id => { b with vao := id }
  | _ => b

/-- Bindings after issuing a trace of driver calls in order. -/
def runCalls (b : Bindings) (t : List GlCall) : Bindings :=
  t.foldl applyCall b

/-! ## Spec-modelled draw-call dispatch

Modelled from the spec: the draw-dispatch step that consumes a
`DrawCall`, invoked as `factory.draw(&framebuffer, &state, &vertex_array,
&draw_call, &invocation)` by `examples/deferred/main.rs` and
`examples/triangle/main.rs`, is not present under `src/` — only its
declarations (`src/draw_call.rs`) and callers exist. Per spec §4.5 step 6:
dispatch `Arrays` from `draw_call.offset`/`count` with no index buffer, or
`Elements` (requires the vertex array to have an index accessor; uses its
element data type); the instanced variants are declared but explicitly
unimplemented — calling them must abort with a clear "not implemented"
signal, not silently no-op. -/
def dispatchDrawCall (va : vertex_array.VertexArray)
    (dc : draw_call.DrawCall) : Except String (List GlCall) :=
  match dc.kind with
  | .Arrays =>
      .ok [GlCall.drawArrays dc.primitive.as_gl_enum dc.offset dc.count]
  | .Elements =>
      match va.indices with
      | some accessor =>
          .ok [GlCall.drawElements dc.primitive.as_gl_enum dc.offset dc.count
                accessor.format.gl_data_type]
      | none => .error "Elements draw requires an index accessor"
  | .ArraysInstanced _ => .error "not implemented"
  | .ElementsInstanced _ => .error "not implemented"

/-! ## Remaining auxiliary definitions -/

/-- Recognizer of the two dispatch calls (`glDrawArrays`/`glDrawElements`)
within a trace. -/
def isDispatchCall : GlCall → Bool
  | .drawArrays _ _ _ => true
  | .drawElements _ _ _ _ => true
  | _ => false

/-- One buffer-upload request issued through the factory: a full
(re)-initialization or an overwrite of a byte range. -/
inductive UploadOp where
  | init (dataLen : Nat)
  | overwrite (offset length dataLen : Nat)
  deriving DecidableEq, Repr

/-- Run a sequence of upload requests against a buffer handle, collecting
the driver trace. `initialize_buffer` and `overwrite_buffer` take the
handle by shared reference and return no new handle, so callers keep using
the same `Buffer` value throughout. -/
def runUploads (b : buffer.Buffer) : List UploadOp → buffer.Buffer × List GlCall
  | [] => (b, [])
  | op :: ops =>
      let calls := match op with
        | .init n => Factory.initialize_buffer b n
        | .overwrite off len n => Factory.overwrite_buffer (b.slice off len) n
      let rest := runUploads b ops
      (rest.1, calls ++ rest.2)

/-- Concrete vertex array for exercising the spec-modelled dispatch. -/
def exampleVaC5 : vertex_array.VertexArray :=
  { id := 1, indices := none, attributes := [] }

/-- Concrete instanced draw call. -/
def exampleDcC5 : draw_call.DrawCall :=
  { offset := 0, count := 3, primitive := .Triangles, kind := .ArraysInstanced 2 }

/-- Concrete vertex array (no index accessor) for the `src/lib.rs` draw. -/
def exampleVaC9 : librs.VertexArray :=
  { id := 5, indices := none, attributes := [] }

/-- Concrete invocation (program id 7, empty uniform slots) for the
`src/lib.rs` draw. -/
def exampleInvC9 : librs.Invocation :=
  { program := { id := 7 }, uniforms := [none, none, none, none] }

/-! ## Helper lemmas -/

theorem handle.countMsg_append (m : handle.Msg) (q₁ q₂ : List handle.Msg) :
    handle.countMsg m (q₁ ++ q₂)
      = handle.countMsg m q₁ + handle.countMsg m q₂ := by
  simp [handle.countMsg, List.filter_append]

theorem handle.step_preserves_Inv (c : handle.Category) (id : Nat)
    (s : handle.State) (op : handle.Op)
    (hlive : 0 < s.refcount) (hinv : handle.Inv c id s) :
    handle.Inv c id (handle.step c id s op) := by
  rcases hinv with ⟨hpos, hcnt⟩ | ⟨hzero, _⟩
  · cases op with
    | clone => exact Or.inl ⟨Nat.succ_pos _, hcnt⟩
    | drop =>
        by_cases h1 : s.refcount = 1
        · refine Or.inr ⟨?_, ?_⟩
          · simp [handle.step, h1]
          · rw [show handle.step c id s .drop
                  = { refcount := 0,
                      queue := s.queue ++ [handle.destructorMessage c id] } from by
                simp [handle.step, h1]]
            rw [handle.countMsg_append, hcnt]
            simp [handle.countMsg]
        · refine Or.inl ⟨?_, ?_⟩
          · simp only [handle.step, if_neg h1]
            omega
          · simpa [handle.step, h1] using hcnt
  · omega

theorem handle.run_preserves_Inv (c : handle.Category) (id : Nat) :
    ∀ (ops : List handle.Op) (s : handle.State),
      handle.Valid c id s ops → handle.Inv c id s →
      handle.Inv c id (handle.run c id s ops) := by
  intro ops
  induction ops with
  | nil => intro s _ hinv; exact hinv
  | cons op rest ih =>
      intro s hv hinv
      exact ih _ hv.2 (handle.step_preserves_Inv c id s op hv.1 hinv)

theorem filter_dispatch_flatMap_nil (l : List Nat) (f : Nat → List GlCall)
    (h : ∀ i, (f i).filter isDispatchCall = []) :
    (l.flatMap f).filter isDispatchCall = [] := by
  induction l with
  | nil => rfl
  | cons a l ih => simp [List.flatMap_cons, List.filter_append, h, ih]

theorem filter_dispatch_uniformCalls (us : List (Option buffer.Buffer)) :
    (Factory.uniformCalls us).filter isDispatchCall = [] := by
  apply filter_dispatch_flatMap_nil
  intro i
  cases us.getD i none <;> simp [isDispatchCall]

theorem filter_dispatch_samplerCalls (ss : List (Option texture.Sampler)) :
    (Factory.samplerCalls ss).filter isDispatchCall = [] := by
  apply filter_dispatch_flatMap_nil
  intro i
  cases ss.getD i none <;> simp [isDispatchCall]

theorem runUploads_fst (b : buffer.Buffer) (ops : List UploadOp) :
    (runUploads b ops).1 = b := by
  induction ops with
  | nil => rfl
  | cons op rest ih => simp [runUploads, ih]

/-! ## Claim theorems -/

/-- C1: for every resource handle category, over any valid sequence of
clone/drop operations on one shared destructor, the destructor's message
(carrying its numeric driver id) is in the category's queue exactly once
when the reference count has reached zero and zero times otherwise — i.e.
it is enqueued exactly once, at the moment the last clone is dropped — and
a clone step never enqueues anything. -/
theorem release_enqueued_exactly_once (c : handle.Category) (id : Nat)
    (ops : List handle.Op) (h : handle.Valid c id handle.init ops) :
    (handle.countMsg (handle.destructorMessage c id)
        (handle.run c id handle.init ops).queue
      = if (handle.run c id handle.init ops).refcount = 0 then 1 else 0)
    ∧ ∀ s : handle.State,
        (handle.step c id s handle.Op.clone).queue = s.queue := by
  constructor
  · have hinv := handle.run_preserves_Inv c id ops handle.init h
      (Or.inl (by simp [handle.init, handle.countMsg]))
    rcases hinv with ⟨hpos, hcnt⟩ | ⟨hzero, hcnt⟩
    · rw [hcnt, if_neg (by omega)]
    · rw [hcnt, hzero, if_pos rfl]
  · intro s
    rfl

/-- Witness for C1 at a concrete trace: clone once, drop both clones. -/
theorem release_enqueued_exactly_once_witness :
    handle.countMsg (handle.destructorMessage handle.Category.buffer 7)
        (handle.run handle.Category.buffer 7 handle.init
          [handle.Op.clone, handle.Op.drop, handle.Op.drop]).queue
      = if (handle.run handle.Category.buffer 7 handle.init
              [handle.Op.clone, handle.Op.drop, handle.Op.drop]).refcount = 0
        then 1 else 0 :=
  (release_enqueued_exactly_once handle.Category.buffer 7
    [handle.Op.clone, handle.Op.drop, handle.Op.drop]
    (by simp [handle.Valid, handle.step, handle.init])).1

/-- C2 (code evaluated at the failing input): when the bounded release
queue already holds `MAX_QUEUE_SIZE` pending ids, the `send` performed by
`Destructor::drop` blocks the dropping thread instead of silently dropping
the release request. -/
theorem destructor_send_blocks_on_full_queue :
    Destructor.drop_send { id := 42 }
        (List.replicate queue.MAX_QUEUE_SIZE 0)
      = queue.SendOutcome.blocked := by
  simp [Destructor.drop_send, queue.send]

/-- C4: the trace of `Factory::draw` contains exactly one dispatch call —
a `glDrawElements` with the index accessor's element data type exactly when
the vertex array owns an index accessor, a `glDrawArrays` otherwise — and
in both cases the dispatch starts at the range's start and draws
`range.end - range.start` vertices/elements. -/
theorem draw_dispatch_iff_index_accessor (va : vertex_array.VertexArray)
    (start stop : Nat) (inv : Invocation) :
    (Factory.draw va start stop inv).filter isDispatchCall
      = match va.indices with
        | some accessor =>
            [GlCall.drawElements gl.TRIANGLES start (stop - start)
              accessor.format.gl_data_type]
        | none => [GlCall.drawArrays gl.TRIANGLES start (stop - start)] := by
  cases h : va.indices <;>
    simp [Factory.draw, List.filter_append, filter_dispatch_uniformCalls,
      filter_dispatch_samplerCalls, isDispatchCall, h]

/-- C5 (spec-modelled dispatch): an instanced draw-call kind deterministically
aborts with the "not implemented" signal; it never produces a trace. -/
theorem instanced_draw_call_aborts (va : vertex_array.VertexArray)
    (dc : draw_call.DrawCall) (n : Nat)
    (h : dc.kind = draw_call.Kind.ArraysInstanced n
       ∨ dc.kind = draw_call.Kind.ElementsInstanced n) :
    dispatchDrawCall va dc = Except.error "not implemented" := by
  rcases h with h | h <;> simp [dispatchDrawCall, h]

/-- Witness for C5 at a concrete instanced draw call. -/
theorem instanced_draw_call_aborts_witness :
    dispatchDrawCall exampleVaC5 exampleDcC5
      = Except.error "not implemented" :=
  instanced_draw_call_aborts exampleVaC5 exampleDcC5 2 (Or.inl rfl)

/-- C6: `query_uniform_block_index` returns `None` exactly when the driver
reports `GL_INVALID_INDEX`, and `query_uniform_index` returns `None`
exactly when the driver reports location `-1`; otherwise both return
`Some`. -/
theorem query_lookups_none_iff_driver_sentinel :
    (∀ driverIndex : Nat,
        Factory.query_uniform_block_index driverIndex = none
          ↔ driverIndex = gl.INVALID_INDEX)
    ∧ ∀ location : Int,
        Factory.query_uniform_index location = none ↔ location = -1 := by
  constructor
  · intro i
    unfold Factory.query_uniform_block_index
    split <;> simp_all
  · intro l
    unfold Factory.query_uniform_index
    split <;> simp_all

/-- C7: under an error-free driver (`glGetError` returning 0, which the
claim presupposes), shader-object compilation aborts exactly when the
reported compile status is 0 and program linking aborts exactly when the
reported link status is 0; on nonzero status `program_object` and the
program-linking operation return normally, producing the handle. -/
theorem compile_link_abort_iff_status_zero :
    (∀ status : Int,
        Factory.compile_shader 0 status 0
            = Except.error "Shader compilation failed"
          ↔ status = 0)
    ∧ (∀ status : Int,
        Factory.link_program 0 status 0
            = Except.error "Program linking failed"
          ↔ status = 0)
    ∧ (∀ (driverId : Nat) (kind : program.Kind) (status : Int), status ≠ 0 →
        Factory.program_object driverId kind 0 status 0
          = Except.ok (program.Object.new driverId kind))
    ∧ ∀ (driverId : Nat) (v f : program.Object) (status : Int), status ≠ 0 →
        Factory.programLink driverId v f 0 status 0
          = Except.ok (program.Program.new driverId) := by
  refine ⟨?_, ?_, ?_, ?_⟩
  · intro status
    simp only [Factory.compile_shader, Factory.check_error]
    split <;> simp_all
  · intro status
    simp only [Factory.link_program, Factory.check_error]
    split <;> simp_all
  · intro driverId kind status h
    simp [Factory.program_object, Factory.compile_shader, Factory.check_error, h]
  · intro driverId v f status h
    simp [Factory.programLink, Factory.link_program, Factory.check_error, h]

/-- Witness for C7 at status 1 (success) and status 0 (failure). -/
theorem compile_link_abort_witness :
    Factory.program_object 3 program.Kind.Vertex 0 1 0
        = Except.ok (program.Object.new 3 program.Kind.Vertex)
    ∧ Factory.programLink 9 (program.Object.new 3 program.Kind.Vertex)
          (program.Object.new 4 program.Kind.Fragment) 0 1 0
        = Except.ok (program.Program.new 9)
    ∧ Factory.compile_shader 0 0 0 = Except.error "Shader compilation failed" :=
  ⟨compile_link_abort_iff_status_zero.2.2.1 3 program.Kind.Vertex 1 (by decide),
   compile_link_abort_iff_status_zero.2.2.2 9
     (program.Object.new 3 program.Kind.Vertex)
     (program.Object.new 4 program.Kind.Fragment) 1 (by decide),
   (compile_link_abort_iff_status_zero.1 0).mpr rfl⟩

/-- C8 (counterexample): the `src/lib.rs` `Format` — the variant offering
`bits()` and the `Float` construction with named fields used by the claim —
accepts a declared component count outside 1-4: `size()` on a `Float` with
bits 32 and size 7 returns 7 normally instead of erroring. -/
theorem format_size_out_of_range_not_rejected :
    librs.Format.size (librs.Format.Float 32 7) = 7
    ∧ ¬(1 ≤ (7 : Nat) ∧ (7 : Nat) ≤ 4) := by
  exact ⟨rfl, by omega⟩

/-- C8 (amended): for the `src/lib.rs` `Format`, `size()`, `bits()` and
`norm()` return exactly the constructed values for every variant — with no
1-4 validation — and the `Float 32 3` example satisfies the claimed
round-trip; the 1-4 panic exists only in the standalone `src/buffer.rs`
`format::Format`, whose `size()` returns the declared count when it is
1-4 and aborts otherwise. -/
theorem format_roundtrip (bits size : Nat) (norm : Bool)
    (f : buffer.format.Format) :
    ((librs.Format.Float bits size).size = size
      ∧ (librs.Format.Float bits size).bits = bits
      ∧ (librs.Format.Float bits size).norm = false)
    ∧ ((librs.Format.Signed bits norm size).size = size
      ∧ (librs.Format.Signed bits norm size).bits = bits
      ∧ (librs.Format.Signed bits norm size).norm = norm)
    ∧ ((librs.Format.Unsigned bits norm size).size = size
      ∧ (librs.Format.Unsigned bits norm size).bits = bits
      ∧ (librs.Format.Unsigned bits norm size).norm = norm)
    ∧ ((librs.Format.Float 32 3).size = 3
      ∧ (librs.Format.Float 32 3).norm = false
      ∧ (librs.Format.Float 32 3).bits = 32)
    ∧ (1 ≤ f.declared ∧ f.declared ≤ 4 → f.size = some f.declared)
    ∧ (¬(1 ≤ f.declared ∧ f.declared ≤ 4) → f.size = none) := by
  refine ⟨⟨rfl, rfl, rfl⟩, ⟨rfl, rfl, rfl⟩, ⟨rfl, rfl, rfl⟩,
    ⟨rfl, rfl, rfl⟩, ?_, ?_⟩
  · intro h
    have : f.declared = 1 ∨ f.declared = 2 ∨ f.declared = 3 ∨ f.declared = 4 := by
      omega
    rcases this with h1 | h1 | h1 | h1 <;>
      simp [buffer.format.Format.size, h1]
  · intro h
    unfold buffer.format.Format.size
    split <;> first | rfl | (exfalso; omega)

/-- Witness for C8 (amended) at `F32(3)` and `F32(7)`. -/
theorem format_roundtrip_witness :
    buffer.format.Format.size (buffer.format.Format.F32 3) = some 3
    ∧ buffer.format.Format.size (buffer.format.Format.F32 7) = none :=
  ⟨by
      have h := (format_roundtrip 32 3 false (buffer.format.Format.F32 3)).2.2.2.2.1
      exact h (by decide),
   by
      have h := (format_roundtrip 32 7 false (buffer.format.Format.F32 7)).2.2.2.2.2
      exact h (by decide)⟩

/-- C9 (counterexample): the `src/lib.rs` `Factory::draw` — one of the two
`Factory::draw` implementations in the repository — leaves the program and
vertex-array bindings set to the draw's own program (7) and VAO (5) after
the dispatch completes, rather than resetting them to 0. -/
theorem librs_draw_leaves_bindings_bound :
    (librs.Factory.draw exampleVaC9 0 3 exampleInvC9).map
        (runCalls { program := 0, vao := 0 })
      = some { program := 7, vao := 5 }
    ∧ (librs.Factory.draw exampleVaC9 0 3 exampleInvC9).map
        (runCalls { program := 0, vao := 0 })
      ≠ some { program := 0, vao := 0 } := by
  constructor
  · rfl
  · decide

/-- C9 (amended): after every dispatch of the standalone
`src/factory.rs` `Factory::draw`, the program and vertex-array bindings
have been reset to 0, whatever they were before; the superseded
`src/lib.rs` `Factory::draw` does not reset them. -/
theorem draw_resets_program_and_vao (va : vertex_array.VertexArray)
    (start stop : Nat) (inv : Invocation) (b : Bindings) :
    runCalls b (Factory.draw va start stop inv)
      = { program := 0, vao := 0 } := by
  cases va.indices <;>
    simp [Factory.draw, runCalls, List.foldl_append, applyCall]

/-- C10: a buffer handle is created with stored size 0, and no sequence of
`initialize_buffer`/`overwrite_buffer` uploads changes it: afterwards
`Buffer::size()` still returns 0 and `Buffer::as_slice()` covers bytes 0
to 0 of the buffer. -/
theorem buffer_size_stays_zero (driverId : Nat) (kind : buffer.Kind)
    (usage : buffer.Usage) (ops : List UploadOp) :
    (runUploads (Factory.buffer driverId kind usage) ops).1.size = 0
    ∧ (runUploads (Factory.buffer driverId kind usage) ops).1.as_slice
      = buffer.Slice.new (Factory.buffer driverId kind usage) 0 0 := by
  rw [runUploads_fst]
  exact ⟨rfl, rfl⟩

end Gpu
